import Mathlib

/-!
Shallow embedding of the swarm-rs core (src/swarm.rs, src/types.rs).

Modelling conventions:
- serde_json::Value is embedded as `Json`; numbers are modelled as integers
  (no claim depends on float formatting).  JSON objects are field lists in
  insertion order; Map::insert is modelled by `insertAssoc` (remove the old
  binding of the key, then append), which preserves lookup semantics.
- HashMap String String (context variables) is modelled as `CtxMap`, an
  association list maintained by the same `insertAssoc`; HashMap::extend is
  `extendKV` (fold of inserts, so a later binding overwrites an earlier one,
  exactly the last-write-wins behaviour of HashMap::extend).
- Rust panics (expect, Option::unwrap, Result::unwrap, the unimplemented
  placeholder) are embedded as the explicit `panic` and `panicked`
  constructors of `PanicOr` and `RunOutcome`; a Result error returned from
  `run` is the distinct `err` constructor.
- The tool-call argument payload is a Rust String fed to
  serde_json::from_str; it is modelled by its parse outcome (`ArgPayload`):
  either malformed (from_str fails) or well formed with the parsed value.
- The network call get_chat_completion is the sole collaborator; it is
  modelled as an explicit function parameter `svc` from the active agent and
  history to either a request error or the first-choice response message.
-/

/-- Embedded serde_json::Value.  Numbers are modelled as integers. -/
inductive Json where
  | null
  | bool (b : Bool)
  | num (n : Int)
  | str (s : String)
  | arr (elems : List Json)
  | obj (fields : List (String × Json))

/-- Value::as_str from serde_json: Some only for JSON strings. -/
def Json.asStr : Json → Option String
  | .str s => some s
  | _ => none

/-- Value::as_object from serde_json: Some only for JSON objects. -/
def Json.asObject : Json → Option (List (String × Json))
  | .obj fields => some fields
  | _ => none

/-- Map::contains_key on an embedded JSON object. -/
def containsKey (fields : List (String × Json)) (k : String) : Bool :=
  fields.any (fun p => p.1 == k)

/-- Map lookup (first binding) on an embedded JSON object. -/
def getField (fields : List (String × Json)) (k : String) : Option Json :=
  List.lookup k fields

/-- Map::insert / HashMap::insert: drop any old binding of the key, then
append the new one.  Lookup semantics match the Rust maps. -/
def insertAssoc {β : Type} (l : List (String × β)) (k : String) (v : β) :
    List (String × β) :=
  (l.filter fun p => !(p.1 == k)) ++ [(k, v)]

/-- Context-variable map: HashMap String String as an association list. -/
def CtxMap : Type := List (String × String)

/-- HashMap::extend: insert every binding of the second map into the first,
in order, so for a duplicated key the later binding wins. -/
def extendKV (m : CtxMap) (l : CtxMap) : CtxMap :=
  l.foldl (fun acc p => insertAssoc acc p.1 p.2) m

/-- JSON double-quote character. -/
def quoteCh : Char := Char.ofNat 34

/-- JSON backslash character. -/
def backslashCh : Char := Char.ofNat 92

/-- Minimal serde_json string escaping: quote, backslash and the common
control characters (other control characters are not used by any claim). -/
def escapeString (s : String) : String :=
  s.foldl (fun acc c =>
    if c = quoteCh then acc ++ backslashCh.toString ++ quoteCh.toString
    else if c = backslashCh then acc ++ backslashCh.toString ++ backslashCh.toString
    else if c = Char.ofNat 10 then acc ++ backslashCh.toString ++ "n"
    else if c = Char.ofNat 13 then acc ++ backslashCh.toString ++ "r"
    else if c = Char.ofNat 9 then acc ++ backslashCh.toString ++ "t"
    else acc.push c) ""

/-- A JSON string literal with surrounding quotes. -/
def renderString (s : String) : String :=
  quoteCh.toString ++ escapeString s ++ quoteCh.toString

mutual

/-- serde_json::to_string: compact textual JSON form of a value. -/
def render : Json → String
  | .null => "null"
  | .bool b => if b then "true" else "false"
  | .num n => toString n
  | .str s => renderString s
  | .arr xs => "[" ++ renderArr xs ++ "]"
  | .obj fs => "\x7b" ++ renderObj fs ++ "\x7d"

/-- Comma-separated rendering of JSON array elements. -/
def renderArr : List Json → String
  | [] => ""
  | [j] => render j
  | j :: rest => render j ++ "," ++ renderArr rest

/-- Comma-separated rendering of JSON object fields. -/
def renderObj : List (String × Json) → String
  | [] => ""
  | [p] => renderString p.1 ++ ":" ++ render p.2
  | p :: rest => renderString p.1 ++ ":" ++ render p.2 ++ "," ++ renderObj rest

end

/-- types.rs Tool: an advertised tool spec. -/
structure Tool where
  name : String
  description : String
  parameters : Json

/-- types.rs Agent. -/
structure Agent where
  name : String
  model : String
  instructions : String
  tools : List Tool
  tool_choice : Option String
  parallel_tool_calls : Bool

/-- types.rs ToolResult: the normalized result of one tool invocation. -/
structure ToolResult where
  value : String
  agent : Option Agent
  context_variables : CtxMap

/-- serde Deserialize for Tool: requires name and description to be JSON
strings and parameters to be present (any JSON value). -/
def toolFromJson : Json → Option Tool
  | .obj fields =>
    match getField fields "name", getField fields "description",
          getField fields "parameters" with
    | some (.str n), some (.str d), some p => some ⟨n, d, p⟩
    | _, _, _ => none
  | _ => none

/-- serde Deserialize for Vec Tool: a JSON array whose elements all parse. -/
def toolsFromJson : Json → Option (List Tool)
  | .arr xs =>
    xs.foldr (fun j acc =>
      match toolFromJson j, acc with
      | some t, some ts => some (t :: ts)
      | _, _ => none) (some [])
  | _ => none

/-- serde Deserialize for an Option String field: absent or null gives
none, a string gives some, anything else fails. -/
def optStrField (fields : List (String × Json)) (k : String) :
    Option (Option String) :=
  match getField fields k with
  | none => some none
  | some .null => some none
  | some (.str s) => some (some s)
  | some _ => none

/-- serde Deserialize for Agent: all fields except tool_choice are
required; unknown fields are ignored (serde default). -/
def agentFromJson : Json → Option Agent
  | .obj fields =>
    match getField fields "name", getField fields "model",
          getField fields "instructions" with
    | some (.str nm), some (.str md), some (.str ins) =>
      match getField fields "tools" with
      | some tj =>
        match toolsFromJson tj with
        | some ts =>
          match optStrField fields "tool_choice" with
          | some tc =>
            match getField fields "parallel_tool_calls" with
            | some (.bool b) => some ⟨nm, md, ins, ts, tc, b⟩
            | _ => none
          | none => none
        | none => none
      | none => none
    | _, _, _ => none
  | _ => none

/-- serde Deserialize for HashMap String String: a JSON object whose
values are all strings; a duplicated key keeps the later binding. -/
def ctxFromJson : Json → Option CtxMap
  | .obj fields =>
    fields.foldl (fun acc p =>
      match acc, p.2 with
      | some m, .str s => some (insertAssoc m p.1 s)
      | _, _ => none) (some ([] : CtxMap))
  | _ => none

/-- serde Serialize for HashMap String String. -/
def ctxToJson (m : CtxMap) : Json :=
  .obj (m.map fun p => (p.1, Json.str p.2))

/-- serde Deserialize for ToolResult: value must be a JSON string, agent is
optional (absent or null gives none, otherwise must parse as an Agent),
context_variables is required and must be a string-to-string object. -/
def toolResultFromJson : Json → Option ToolResult
  | .obj fields =>
    match getField fields "value" with
    | some (.str v) =>
      match
        (match getField fields "agent" with
         | none => some (none : Option Agent)
         | some .null => some none
         | some j =>
           match agentFromJson j with
           | some a => some (some a)
           | none => none) with
      | some ag =>
        match getField fields "context_variables" with
        | some cj =>
          match ctxFromJson cj with
          | some cv => some ⟨v, ag, cv⟩
          | none => none
        | none => none
      | none => none
    | _ => none
  | _ => none

/-- Outcome of a code path that can hit a Rust panic. -/
inductive PanicOr (α : Type) where
  | panic (msg : String)
  | ok (val : α)

/-- The string used when a raw value is not itself a plain JSON string:
Value::as_str on it gives None. -/
def fallbackString (j : Json) : String :=
  match j with
  | .str s => s
  | other => render other

/-- The string for the degraded branch: index the object at the value key
and take as_str, defaulting to the empty string. -/
def strOrEmpty (o : Option Json) : String :=
  match o with
  | some (.str s) => s
  | _ => ""

/-- Swarm::handle_function_result: classify a raw handler output.  An
object with a value key is parsed as a full ToolResult, degrading to just
the value field as a string on parse failure; an object with an assistant
key serializes the whole object into the value string and unwraps the
deserialization of that whole object as the replacement Agent (a Rust
panic when it does not parse); anything else is used verbatim when it is a
plain string and otherwise rendered to text.  The debug flag only controls
logging in the source and does not affect the value. -/
def handle_function_result (raw : Json) (debug : Bool) : PanicOr ToolResult :=
  match raw with
  | .obj fields =>
    if containsKey fields "value" then
      match toolResultFromJson (.obj fields) with
      | some r => .ok r
      | none => .ok ⟨strOrEmpty (getField fields "value"), none, []⟩
    else if containsKey fields "assistant" then
      match agentFromJson (.obj fields) with
      | some ag => .ok ⟨render (.obj fields), some ag, []⟩
      | none => .panic "called Result::unwrap() on an Err value"
    else .ok ⟨fallbackString (.obj fields), none, []⟩
  | other => .ok ⟨fallbackString other, none, []⟩

/-- The argument payload of a tool call (a Rust String), modelled by the
outcome of serde_json::from_str on it. -/
inductive ArgPayload where
  | malformed (raw : String)
  | wellFormed (json : Json)

/-- serde_json::from_str on the payload. -/
def parseArgs : ArgPayload → Option Json
  | .malformed _ => none
  | .wellFormed j => some j

/-- ChatCompletionMessageToolCall: id plus the function name and argument
payload. -/
structure ToolCall where
  id : String
  name : String
  arguments : ArgPayload

/-- ChatCompletionRequestMessage, restricted to the variants the core
produces or inspects. -/
inductive Message where
  | user (content : String) (name : Option String)
  | assistant (content : Option String) (tool_calls : Option (List ToolCall))
      (refusal : Option String)
  | tool (content : String) (tool_call_id : String)

/-- ChatCompletionResponseMessage: the fields run reads. -/
structure Completion where
  content : Option String
  tool_calls : Option (List ToolCall)
  refusal : Option String

/-- Number of tool calls carried by a completion. -/
def toolCallCount (c : Completion) : Nat :=
  match c.tool_calls with
  | none => 0
  | some l => l.length

/-- types.rs Response. -/
structure Response where
  messages : List Message
  agent : Option Agent
  context_variables : CtxMap

/-- types.rs ToolRegistry: both maps are keyed by tool name. -/
structure ToolRegistry where
  tools : List (String × Tool)
  functions : List (String × (Json → Json))

/-- ToolRegistry::new. -/
def ToolRegistry.new : ToolRegistry := ⟨[], []⟩

/-- ToolRegistry::register_tool: build the Tool and insert spec and handler
under the name, silently replacing an existing entry. -/
def ToolRegistry.register_tool (reg : ToolRegistry) (name description : String)
    (parameters : Json) (function : Json → Json) : ToolRegistry :=
  ⟨insertAssoc reg.tools name ⟨name, description, parameters⟩,
   insertAssoc reg.functions name function⟩

/-- ToolRegistry::get_function. -/
def ToolRegistry.get_function (reg : ToolRegistry) (name : String) :
    Option (Json → Json) :=
  List.lookup name reg.functions

/-- ToolRegistry::get_tool. -/
def ToolRegistry.get_tool (reg : ToolRegistry) (name : String) : Option Tool :=
  List.lookup name reg.tools

/-- The loop body of Swarm::handle_tool_calls, with the accumulated
Response made explicit.  For each call in order: an unregistered name
appends a not-found Tool message and continues; otherwise the argument
payload is parsed (expect panics on failure), required to be an object
(Option::unwrap panics otherwise), the current context variables are
injected under the reserved key, the handler runs, its output is
normalized, one Tool message correlated to the call id is appended, the
context variables are merged (later wins) and a produced agent replaces
the accumulated one. -/
def handleToolCallsAux (reg : ToolRegistry) (ctx : CtxMap) (debug : Bool) :
    List ToolCall → Response → PanicOr Response
  | [], acc => .ok acc
  | tc :: rest, acc =>
    match reg.get_function tc.name with
    | some func =>
      match parseArgs tc.arguments with
      | none => .panic "Failed to parse arguments"
      | some args =>
        match args.asObject with
        | none => .panic "called Option::unwrap() on a None value"
        | some fields =>
          let argsWithContext := insertAssoc fields "context_variables" (ctxToJson ctx)
          match handle_function_result (func (Json.obj argsWithContext)) debug with
          | .panic m => .panic m
          | .ok result =>
            handleToolCallsAux reg ctx debug rest
              ⟨acc.messages ++ [Message.tool result.value tc.id],
               (match result.agent with
                | some a => some a
                | none => acc.agent),
               extendKV acc.context_variables result.context_variables⟩
    | none =>
      handleToolCallsAux reg ctx debug rest
        ⟨acc.messages ++ [Message.tool ("error: tool " ++ tc.name ++ " not found.") tc.id],
         acc.agent, acc.context_variables⟩

/-- Swarm::handle_tool_calls: process the calls starting from an empty
accumulated response.  The context variables are only read (for injection); the
merge into the conversation state happens in run. -/
def handle_tool_calls (reg : ToolRegistry) (tool_calls : List ToolCall)
    (context_variables : CtxMap) (debug : Bool) : PanicOr Response :=
  handleToolCallsAux reg context_variables debug tool_calls ⟨[], none, []⟩

/-- Outcome of Swarm::run: a returned Response, a returned error, or a
Rust panic. -/
inductive RunOutcome where
  | ok (r : Response)
  | err (msg : String)
  | panicked (msg : String)

/-- True exactly for a returned Response. -/
def RunOutcome.isOk : RunOutcome → Bool
  | .ok _ => true
  | _ => false

/-- True exactly for a returned error value. -/
def RunOutcome.isErr : RunOutcome → Bool
  | .err _ => true
  | _ => false

/-- True exactly for a panic. -/
def RunOutcome.isPanicked : RunOutcome → Bool
  | .panicked _ => true
  | _ => false

/-- The messages of a returned Response (empty otherwise). -/
def RunOutcome.messagesOf : RunOutcome → List Message
  | .ok r => r.messages
  | _ => []

/-- The context variables of a returned Response (empty otherwise). -/
def RunOutcome.ctxOf : RunOutcome → CtxMap
  | .ok r => r.context_variables
  | _ => []

/-- The final agent of a returned Response (none otherwise). -/
def RunOutcome.agentOf : RunOutcome → Option Agent
  | .ok r => r.agent
  | _ => none

/-- usize::MAX, the default turn bound. -/
def usizeMax : Nat := 2 ^ 64 - 1

/-- Swarm::run_and_stream: a placeholder whose body is the unimplemented
placeholder, i.e. an immediate panic. -/
def run_and_stream (_agent : Agent) (_messages : List Message)
    (_context_variables : Option CtxMap) (_model_override : Option String)
    (_debug : Bool) (_max_turns : Option Nat) (_execute_tools : Bool) :
    RunOutcome :=
  .panicked "not implemented"

/-- The while loop of Swarm::run.  The loop runs while the number of
appended messages (history length minus initial length) is below
max_turns; each iteration requests a completion (a request error aborts
run with err), appends the assistant message unconditionally, stops when
it carries no tool calls, and otherwise dispatches the calls, appends the
produced tool messages, merges context variables and swaps the active
agent when a replacement was produced.  The fuel argument only bounds the
recursion depth: run passes fuel = max_turns, and since every iteration
appends at least one message while the guard requires fewer than max_turns
appended messages, the loop can never iterate more than max_turns times,
so fuel 0 is only reached with the guard false and returns the same exit
value the guard-false branch does. -/
def runLoop (reg : ToolRegistry)
    (svc : Agent → List Message → Except String Completion) (debug : Bool)
    (initLen maxTurns : Nat) :
    Nat → Agent → List Message → CtxMap → RunOutcome
  | 0, active, history, ctx => .ok ⟨history.drop initLen, some active, ctx⟩
  | fuel + 1, active, history, ctx =>
    if history.length - initLen < maxTurns then
      match svc active history with
      | .error e => .err e
      | .ok comp =>
        let history2 := history ++
          [Message.assistant comp.content comp.tool_calls comp.refusal]
        match comp.tool_calls with
        | none => .ok ⟨history2.drop initLen, some active, ctx⟩
        | some tcs =>
          match handle_tool_calls reg tcs ctx debug with
          | .panic m => .panicked m
          | .ok pr =>
            runLoop reg svc debug initLen maxTurns fuel
              (match pr.agent with
               | some a => a
               | none => active)
              (history2 ++ pr.messages)
              (extendKV ctx pr.context_variables)
    else .ok ⟨history.drop initLen, some active, ctx⟩

/-- Swarm::run.  The Swarm state is the registry; the completion client is
the svc collaborator.  stream = true immediately delegates to the
streaming placeholder; otherwise the context variables default to empty,
the initial length is recorded, max_turns defaults to usize::MAX, and the
turn loop runs on a copy of the messages given by the caller.  model_override and
execute_tools are accepted but never read, as in the source. -/
def run (reg : ToolRegistry)
    (svc : Agent → List Message → Except String Completion) (agent : Agent)
    (messages : List Message) (context_variables : Option CtxMap)
    (model_override : Option String) (stream debug : Bool)
    (max_turns : Option Nat) (execute_tools : Bool) : RunOutcome :=
  if stream then
    run_and_stream agent messages context_variables model_override debug
      max_turns execute_tools
  else
    let ctx := context_variables.getD []
    let initLen := messages.length
    let maxTurns := max_turns.getD usizeMax
    runLoop reg svc debug initLen maxTurns maxTurns agent messages ctx

/-- A concrete agent used by the concrete scenarios below. -/
def agentA : Agent := ⟨"Weather Agent", "gpt-4", "You are a helpful agent.", [], none, true⟩

/-- A completion service whose every response carries one tool call for an
unregistered name. -/
def svcOneCall : Agent → List Message → Except String Completion :=
  fun _ _ => .ok ⟨some "hi", some [⟨"call1", "missing_tool", .wellFormed (Json.obj [])⟩], none⟩

/-- The handoff shape from the specification example: an object whose only
key is assistant, holding the new agent fields nested underneath. -/
def billingJson : Json := Json.obj [("assistant", Json.obj [("name", Json.str "Billing Agent")])]

/-- The structured result example from the specification: value 67F with a
context-variable map carrying units -> F. -/
def weatherFields : List (String × Json) :=
  [("value", Json.str "67F"), ("context_variables", Json.obj [("units", Json.str "F")])]

/-- Number of entries of an association list carrying the given key. -/
def countKey {β : Type} (l : List (String × β)) (k : String) : Nat :=
  (l.filter fun p => p.1 == k).length

/-- True exactly when the path panicked. -/
def PanicOr.isPanic {α : Type} : PanicOr α → Bool
  | .panic _ => true
  | _ => false

/-- True exactly when the path produced a value. -/
def PanicOr.isValue {α : Type} : PanicOr α → Bool
  | .ok _ => true
  | _ => false

/-- A handoff object that does parse as an Agent at the top level: it has
an assistant key together with all the Agent fields. -/
def billingFullFields : List (String × Json) :=
  [("assistant", Json.null), ("name", Json.str "Billing Agent"),
   ("model", Json.str "gpt-4"), ("instructions", Json.str "You handle billing."),
   ("tools", Json.arr []), ("parallel_tool_calls", Json.bool false)]

/-- The Agent that billingFullFields deserializes to. -/
def billingAgent : Agent :=
  ⟨"Billing Agent", "gpt-4", "You handle billing.", [], none, false⟩

/-- A registry with a single registered identity tool named t. -/
def regT : ToolRegistry :=
  ToolRegistry.new.register_tool "t" "a tool" Json.null (fun x => x)

/-- A completion service issuing one call to t with a malformed payload. -/
def svcBadArgs : Agent → List Message → Except String Completion :=
  fun _ _ => .ok ⟨none, some [⟨"call1", "t", .malformed "oops"⟩], none⟩

/-- A completion carrying no tool calls. -/
def compNT : Completion := ⟨some "All done.", none, none⟩

/-- A completion service that always answers without tool calls. -/
def svcNT : Agent → List Message → Except String Completion :=
  fun _ _ => .ok compNT

/-- A handler output setting the context variable k to the given value. -/
def setterResult (v : String) : Json :=
  Json.obj [("value", Json.str "set"),
            ("context_variables", Json.obj [("k", Json.str v)])]

/-- A registry with two tools that both set the context variable k. -/
def regSetters : ToolRegistry :=
  (ToolRegistry.new.register_tool "set1" "sets k" Json.null
      (fun _ => setterResult "1")).register_tool "set2" "sets k" Json.null
    (fun _ => setterResult "2")

/-- A completion service issuing one turn with both setter calls. -/
def svcTwoSets : Agent → List Message → Except String Completion :=
  fun _ _ => .ok ⟨none, some [⟨"c1", "set1", .wellFormed (Json.obj [])⟩,
                              ⟨"c2", "set2", .wellFormed (Json.obj [])⟩], none⟩

/-- A serialized Agent with the given name. -/
def handoffAgentJson (nm : String) : Json :=
  Json.obj [("name", Json.str nm), ("model", Json.str "gpt-4"),
            ("instructions", Json.str "You are a helpful agent."),
            ("tools", Json.arr []), ("parallel_tool_calls", Json.bool true)]

/-- A structured handler output handing off to the named agent. -/
def handoffResult (nm : String) : Json :=
  Json.obj [("value", Json.str "handoff"), ("agent", handoffAgentJson nm),
            ("context_variables", Json.obj [])]

/-- The agent produced by the first handoff tool. -/
def salesAgent : Agent :=
  ⟨"Sales Agent", "gpt-4", "You are a helpful agent.", [], none, true⟩

/-- The agent produced by the second handoff tool. -/
def refundAgent : Agent :=
  ⟨"Refund Agent", "gpt-4", "You are a helpful agent.", [], none, true⟩

/-- A registry with two handoff tools. -/
def regHandoffs : ToolRegistry :=
  (ToolRegistry.new.register_tool "to_sales" "handoff" Json.null
      (fun _ => handoffResult "Sales Agent")).register_tool "to_refund"
    "handoff" Json.null (fun _ => handoffResult "Refund Agent")

/-- A completion service issuing one turn with both handoff calls. -/
def svcTwoHandoffs : Agent → List Message → Except String Completion :=
  fun _ _ => .ok ⟨none, some [⟨"c1", "to_sales", .wellFormed (Json.obj [])⟩,
                              ⟨"c2", "to_refund", .wellFormed (Json.obj [])⟩], none⟩

/-- A completion service issuing one turn with two calls to unregistered
names. -/
def svcTwoMissing : Agent → List Message → Except String Completion :=
  fun _ _ => .ok ⟨some "calling", some [⟨"c1", "ghost1", .wellFormed (Json.obj [])⟩,
                                        ⟨"c2", "ghost2", .wellFormed (Json.obj [])⟩], none⟩

/-- Lookup can skip an initial segment in which the key is absent. -/
theorem lookup_append_of_none {β : Type} {l₁ : List (String × β)}
    (l₂ : List (String × β)) {k : String} (h : List.lookup k l₁ = none) :
    List.lookup k (l₁ ++ l₂) = List.lookup k l₂ := by
  induction l₁ with
  | nil => simp
  | cons p tl ih =>
    obtain ⟨pk, pv⟩ := p
    by_cases hk : k = pk
    · subst hk
      rw [List.lookup] at h
      simp at h
    · have hk3 : (k == pk) = false := by simp [hk]
      simp only [List.cons_append, List.lookup, hk3] at h ⊢
      exact ih h

/-- Filtering away a key makes its lookup fail. -/
theorem lookup_filter_ne {β : Type} (l : List (String × β)) (k : String) :
    List.lookup k (l.filter fun p => !(p.1 == k)) = none := by
  induction l with
  | nil => simp
  | cons p tl ih =>
    obtain ⟨pk, pv⟩ := p
    by_cases hk : pk = k
    · simp only [List.filter, hk, beq_self_eq_true, Bool.not_true]
      exact ih
    · have hk2 : (pk == k) = false := by simp [hk]
      simp only [List.filter, hk2, Bool.not_false, List.lookup]
      have hk3 : (k == pk) = false := by
        simp only [beq_eq_false_iff_ne, ne_eq]
        exact fun hcontra => hk hcontra.symm
      rw [hk3]
      exact ih

/-- Inserting a binding makes its lookup return exactly that binding. -/
theorem lookup_insertAssoc {β : Type} (l : List (String × β)) (k : String)
    (v : β) : List.lookup k (insertAssoc l k v) = some v := by
  rw [insertAssoc, lookup_append_of_none _ (lookup_filter_ne l k)]
  simp [List.lookup]

/-- After an insert, the key has exactly one entry. -/
theorem countKey_insertAssoc {β : Type} (l : List (String × β)) (k : String)
    (v : β) : countKey (insertAssoc l k v) k = 1 := by
  rw [countKey, insertAssoc, List.filter_append]
  have h1 : (l.filter fun p => !(p.1 == k)).filter (fun p => p.1 == k) = [] := by
    induction l with
    | nil => rfl
    | cons p tl ih =>
      by_cases hk : p.1 == k
      · simp only [List.filter, hk, Bool.not_true]
        exact ih
      · simp only [Bool.not_eq_true] at hk
        simp only [List.filter, hk, Bool.not_false]
        exact ih
  rw [h1]
  simp

/-- Dispatch produces exactly one Tool message per processed call, on top
of the accumulated ones, whenever it completes without a panic. -/
theorem htca_msg_count (reg : ToolRegistry) (ctx : CtxMap) (dbg : Bool) :
    ∀ (tcs : List ToolCall) (acc pr : Response),
      handleToolCallsAux reg ctx dbg tcs acc = .ok pr →
      pr.messages.length = acc.messages.length + tcs.length := by
  intro tcs
  induction tcs with
  | nil =>
    intro acc pr h
    cases h
    simp
  | cons tc rest ih =>
    intro acc pr h
    rw [handleToolCallsAux] at h
    cases hg : reg.get_function tc.name with
    | none =>
      simp only [hg] at h
      have := ih _ _ h
      simp only [List.length_append, List.length_cons, List.length_nil] at *
      omega
    | some func =>
      cases hp : parseArgs tc.arguments with
      | none => simp [hg, hp] at h
      | some args =>
        cases ho : args.asObject with
        | none => simp [hg, hp, ho] at h
        | some fields =>
          simp only [hg, hp, ho] at h
          cases hr : handle_function_result
              (func (Json.obj (insertAssoc fields "context_variables" (ctxToJson ctx)))) dbg with
          | panic m => simp [hr] at h
          | ok result =>
            simp only [hr] at h
            have := ih _ _ h
            simp only [List.length_append, List.length_cons, List.length_nil] at *
            omega

/-- The turn loop keeps the appended-message count below maxTurns plus the
largest tool-call batch K: a new round-trip starts only while fewer than
maxTurns messages are appended, and the final round-trip adds one
assistant message plus at most K tool messages. -/
theorem runLoop_bound (reg : ToolRegistry)
    (svc : Agent → List Message → Except String Completion) (dbg : Bool)
    (initLen maxTurns K : Nat)
    (hK : ∀ a h c, svc a h = Except.ok c → toolCallCount c ≤ K) :
    ∀ (fuel : Nat) (active : Agent) (history : List Message) (ctx : CtxMap),
      history.length - initLen ≤ maxTurns + K →
      ∀ r, runLoop reg svc dbg initLen maxTurns fuel active history ctx = .ok r →
        r.messages.length ≤ maxTurns + K := by
  intro fuel
  induction fuel with
  | zero =>
    intro active history ctx hpre r h
    cases h
    simp only [List.length_drop]
    omega
  | succ fuel ih =>
    intro active history ctx hpre r h
    rw [runLoop] at h
    by_cases hcond : history.length - initLen < maxTurns
    · rw [if_pos hcond] at h
      cases hsvc : svc active history with
      | error e => simp [hsvc] at h
      | ok comp =>
        cases htc : comp.tool_calls with
        | none =>
          simp only [hsvc, htc] at h
          cases h
          simp only [List.length_drop, List.length_append, List.length_cons,
            List.length_nil]
          omega
        | some tcs =>
          simp only [hsvc, htc] at h
          cases hht : handle_tool_calls reg tcs ctx dbg with
          | panic m => simp [hht] at h
          | ok pr =>
            simp only [hht] at h
            have hlen := htca_msg_count reg ctx dbg tcs ⟨[], none, []⟩ pr hht
            have hcount : tcs.length ≤ K := by
              have hc := hK active history comp hsvc
              simp only [toolCallCount, htc] at hc
              exact hc
            refine ih _ _ _ ?_ r h
            simp only [List.length_append, List.length_cons, List.length_nil] at *
            omega
    · rw [if_neg hcond] at h
      cases h
      simp only [List.length_drop]
      omega

/-- Claim C3 counterexample: at a concrete input with stream = true, run
does not return an error value; it panics (the unimplemented placeholder),
refuting the claim that the failure is a returned error value and not a
crash. -/
theorem stream_error_value_cx :
    (run ToolRegistry.new svcOneCall agentA [] none none true false (some 1) true).isErr = false ∧
    (run ToolRegistry.new svcOneCall agentA [] none none true false (some 1) true).isPanicked = true :=
  ⟨rfl, rfl⟩

/-- Claim C3 (amended): for every call to run with stream = true and any
other arguments, run immediately delegates to the unimplemented streaming
placeholder and panics with the message NOT IMPLEMENTED; it never silently
falls back to non-streaming and never returns a value or an error. -/
theorem stream_true_unimplemented (reg : ToolRegistry)
    (svc : Agent → List Message → Except String Completion) (agent : Agent)
    (messages : List Message) (ctx : Option CtxMap) (mo : Option String)
    (dbg : Bool) (mt : Option Nat) (et : Bool) :
    run reg svc agent messages ctx mo true dbg mt et = .panicked "not implemented" :=
  rfl

/-- Claim C7: registering the same name twice leaves exactly one handler
entry and one spec entry under that name, and lookup returns the handler
of the second registration. -/
theorem register_twice_last_wins (reg : ToolRegistry) (n d1 d2 : String)
    (p1 p2 : Json) (f1 f2 : Json → Json) :
    countKey ((reg.register_tool n d1 p1 f1).register_tool n d2 p2 f2).functions n = 1 ∧
    countKey ((reg.register_tool n d1 p1 f1).register_tool n d2 p2 f2).tools n = 1 ∧
    ((reg.register_tool n d1 p1 f1).register_tool n d2 p2 f2).get_function n = some f2 := by
  refine ⟨countKey_insertAssoc _ _ _, countKey_insertAssoc _ _ _, ?_⟩
  exact lookup_insertAssoc _ _ _

/-- Claim C10: when a registered tool is called with a payload that is
valid JSON of a non-object shape, dispatch panics at the object unwrap
instead of returning an error or appending a tool message. -/
theorem non_object_args_unwrap_panics (reg : ToolRegistry) (ctx : CtxMap)
    (dbg : Bool) (id name : String) (j : Json) (rest : List ToolCall)
    (f : Json → Json) (hreg : reg.get_function name = some f)
    (hobj : j.asObject = none) :
    handle_tool_calls reg (⟨id, name, .wellFormed j⟩ :: rest) ctx dbg =
      .panic "called Option::unwrap() on a None value" := by
  rw [handle_tool_calls, handleToolCallsAux]
  simp only [hreg, parseArgs, hobj]

/-- Claim C10 witness: the registered identity tool called with the JSON
string payload panics at the object unwrap. -/
theorem non_object_args_unwrap_panics_witness :
    handle_tool_calls regT [⟨"call1", "t", .wellFormed (Json.str "x")⟩] [] false =
      .panic "called Option::unwrap() on a None value" :=
  non_object_args_unwrap_panics regT [] false "call1" "t" (Json.str "x") []
    (fun x => x) rfl rfl

/-- Claim C8: a handler output object carrying a value key is parsed as
the full structured ToolResult; on a structured-parse failure the result
degrades to the value field read as a string (empty when not a string)
with no replacement agent and empty context variables, and the parse
failure never surfaces as a panic or error; in particular the weather
example normalizes to value 67F with units -> F and no handoff. -/
theorem value_key_normalization (flds : List (String × Json)) (dbg : Bool)
    (hv : containsKey flds "value" = true) :
    (∀ r, toolResultFromJson (Json.obj flds) = some r →
        handle_function_result (Json.obj flds) dbg = .ok r) ∧
    (toolResultFromJson (Json.obj flds) = none →
        handle_function_result (Json.obj flds) dbg =
          .ok ⟨strOrEmpty (getField flds "value"), none, []⟩) ∧
    handle_function_result (Json.obj weatherFields) dbg =
      .ok ⟨"67F", none, [("units", "F")]⟩ := by
  refine ⟨?_, ?_, rfl⟩
  · intro r hr
    simp only [handle_function_result, hv, if_true, hr]
  · intro hn
    simp only [handle_function_result, hv, if_true, hn]

/-- Claim C8 witness: the concrete weather result object normalizes to the
parsed structured result. -/
theorem value_key_normalization_witness :
    handle_function_result (Json.obj weatherFields) false =
      .ok ⟨"67F", none, [("units", "F")]⟩ :=
  (value_key_normalization weatherFields false rfl).1
    ⟨"67F", none, [("units", "F")]⟩ rfl

/-- Claim C2 counterexample: the handler output from the claim, an object
whose assistant key nests the new agent name, makes normalization panic at
the Result unwrap, so it yields no normalized result at all, let alone one
whose replacement agent is named Billing Agent. -/
theorem assistant_handoff_cx :
    handle_function_result billingJson false =
      .panic "called Result::unwrap() on an Err value" ∧
    (handle_function_result billingJson false).isValue = false :=
  ⟨rfl, rfl⟩

/-- Claim C2 (amended): for a handler output object carrying an assistant
key and no value key, normalization sets the value string to the JSON
serialization of the whole object and unwraps the deserialization of that
whole object, not of its assistant field, as the replacement Agent; the
handoff succeeds only when the object itself carries the Agent fields, and
otherwise the unwrap panics. -/
theorem assistant_key_whole_object (flds : List (String × Json)) (dbg : Bool)
    (hv : containsKey flds "value" = false)
    (ha : containsKey flds "assistant" = true) :
    (∀ ag, agentFromJson (Json.obj flds) = some ag →
        handle_function_result (Json.obj flds) dbg =
          .ok ⟨render (Json.obj flds), some ag, []⟩) ∧
    (agentFromJson (Json.obj flds) = none →
        handle_function_result (Json.obj flds) dbg =
          .panic "called Result::unwrap() on an Err value") := by
  constructor
  · intro ag hag
    simp only [handle_function_result, hv, ha, if_true, if_false, hag,
      Bool.false_eq_true]
  · intro hn
    simp only [handle_function_result, hv, ha, if_true, if_false, hn,
      Bool.false_eq_true]

/-- Claim C2 witness: an object carrying both the assistant key and full
top-level Agent fields produces the serialized object as value string and
the parsed top-level Agent as replacement. -/
theorem assistant_key_whole_object_witness :
    handle_function_result (Json.obj billingFullFields) false =
      .ok ⟨render (Json.obj billingFullFields), some billingAgent, []⟩ :=
  (assistant_key_whole_object billingFullFields false rfl rfl).1 billingAgent rfl

/-- Claim C1 counterexample: with max_turns = 1 and a completion carrying
one tool call, run appends two messages (the assistant message plus one
tool message), exceeding the claimed bound of max_turns appended messages
past the initial length. -/
theorem run_max_turns_bound_cx :
    ¬ ((run ToolRegistry.new svcOneCall agentA [] none none false false
        (some 1) true).messagesOf.length ≤ 1) := by
  decide

/-- Claim C1 (amended): run starts a new model round-trip only while fewer
than max_turns messages have been appended past the initial length, so
when every completion carries at most K tool calls it appends at most
max_turns + K messages (the overshoot is the final round-trip batch); and
with max_turns = 1 and a completion carrying no tool calls, exactly one
assistant message is appended and the loop terminates. -/
theorem run_turn_budget (reg : ToolRegistry)
    (svc : Agent → List Message → Except String Completion) (agent : Agent)
    (messages : List Message) (ctx0 : Option CtxMap) (mo : Option String)
    (dbg et : Bool) (K maxTurns : Nat)
    (hK : ∀ a h c, svc a h = Except.ok c → toolCallCount c ≤ K) :
    (∀ r, run reg svc agent messages ctx0 mo false dbg (some maxTurns) et = .ok r →
        r.messages.length ≤ maxTurns + K) ∧
    (∀ c0, svc agent messages = Except.ok c0 → c0.tool_calls = none →
        run reg svc agent messages ctx0 mo false dbg (some 1) et =
          .ok ⟨[Message.assistant c0.content none c0.refusal], some agent,
               ctx0.getD []⟩) := by
  constructor
  · intro r h
    simp only [run, if_false, Bool.false_eq_true, Option.getD_some] at h
    exact runLoop_bound reg svc dbg messages.length maxTurns K hK maxTurns
      agent messages _ (by omega) r h
  · intro c0 hsvc htc
    simp only [run, if_false, Bool.false_eq_true, Option.getD_some]
    rw [runLoop]
    rw [if_pos (by omega : messages.length - messages.length < 1)]
    simp only [hsvc, htc, List.drop_left]

/-- Merging a single-binding map twice for the same key and then merging
the result into any map leaves the later value as the binding. -/
theorem lookup_extend_pair (m : CtxMap) (k v1 v2 : String) :
    List.lookup k (extendKV m (extendKV (extendKV [] [(k, v1)]) [(k, v2)])) = some v2 := by
  have h1 : extendKV (extendKV [] [(k, v1)]) [(k, v2)] = [(k, v2)] := by
    simp [extendKV, insertAssoc]
  rw [h1]
  show List.lookup k (insertAssoc m k v2) = some v2
  exact lookup_insertAssoc m k v2

/-- Claim C4 counterexample: at a concrete input whose single tool call
carries a malformed payload, run does not produce a typed error result; it
panics, refuting the claim that the failure surfaces as a typed error
value from run. -/
theorem bad_args_typed_error_cx :
    (run regT svcBadArgs agentA [] none none false false (some 1) true).isErr = false ∧
    (run regT svcBadArgs agentA [] none none false false (some 1) true).isPanicked = true :=
  ⟨rfl, rfl⟩

/-- Claim C4 (amended): when a registered tool is called with a payload
that is not valid JSON, dispatch treats the parse failure as fatal for the
whole run: run aborts at that call with the panic Failed to parse
arguments (the expect in dispatch), never silently skipping the call; the
failure is a panic, not a typed error result. -/
theorem bad_args_fatal_panic (reg : ToolRegistry)
    (svc : Agent → List Message → Except String Completion) (agent : Agent)
    (messages : List Message) (ctx0 : Option CtxMap) (mo : Option String)
    (dbg et : Bool) (id name raw : String) (content refusal : Option String)
    (mt : Nat) (f : Json → Json) (hreg : reg.get_function name = some f)
    (hsvc : svc agent messages =
      Except.ok ⟨content, some [⟨id, name, .malformed raw⟩], refusal⟩)
    (hmt : 0 < mt) :
    run reg svc agent messages ctx0 mo false dbg (some mt) et =
      .panicked "Failed to parse arguments" := by
  have hht : handle_tool_calls reg [⟨id, name, .malformed raw⟩] (ctx0.getD []) dbg =
      .panic "Failed to parse arguments" := by
    rw [handle_tool_calls, handleToolCallsAux]
    simp only [hreg, parseArgs]
  simp only [run, if_false, Bool.false_eq_true, Option.getD_some]
  obtain ⟨n, rfl⟩ : ∃ n, mt = n + 1 := ⟨mt - 1, by omega⟩
  rw [runLoop, if_pos (by omega : messages.length - messages.length < n + 1)]
  simp only [hsvc, hht]

/-- Claim C4 witness: the registered identity tool called with the
malformed payload makes the concrete run panic at argument parsing. -/
theorem bad_args_fatal_panic_witness :
    run regT svcBadArgs agentA [] none none false false (some 1) true =
      .panicked "Failed to parse arguments" :=
  bad_args_fatal_panic regT svcBadArgs agentA [] none none false true "call1"
    "t" "oops" none none 1 (fun x => x) rfl rfl (by decide)

/-- Claim C5: when one turn carries two tool calls that each set the same
context-variable key, the merged context-variable map of the run holds the
value written by the call processed last in dispatch order. -/
theorem ctx_last_write_wins (reg : ToolRegistry)
    (svc : Agent → List Message → Except String Completion) (agent : Agent)
    (messages : List Message) (ctx0 : Option CtxMap) (mo : Option String)
    (dbg et : Bool) (c1 c2 : ToolCall) (comp : Completion)
    (f1 f2 : Json → Json) (flds1 flds2 : List (String × Json))
    (s1 s2 : String) (a1 a2 : Option Agent) (k v1 v2 : String)
    (hsvc : svc agent messages = Except.ok comp)
    (htc : comp.tool_calls = some [c1, c2])
    (hl1 : reg.get_function c1.name = some f1)
    (hl2 : reg.get_function c2.name = some f2)
    (ha1 : c1.arguments = ArgPayload.wellFormed (Json.obj flds1))
    (ha2 : c2.arguments = ArgPayload.wellFormed (Json.obj flds2))
    (hr1 : ∀ x, handle_function_result (f1 x) dbg = .ok ⟨s1, a1, [(k, v1)]⟩)
    (hr2 : ∀ x, handle_function_result (f2 x) dbg = .ok ⟨s2, a2, [(k, v2)]⟩) :
    (run reg svc agent messages ctx0 mo false dbg (some 1) et).isOk = true ∧
    List.lookup k (run reg svc agent messages ctx0 mo false dbg (some 1) et).ctxOf =
      some v2 := by
  simp only [run, if_false, Bool.false_eq_true, Option.getD_some]
  rw [runLoop, if_pos (by omega : messages.length - messages.length < 1)]
  simp only [hsvc, htc, handle_tool_calls, handleToolCallsAux, hl1, hl2, ha1,
    ha2, parseArgs, Json.asObject, hr1, hr2]
  simp only [runLoop, RunOutcome.isOk, RunOutcome.ctxOf]
  exact ⟨trivial, lookup_extend_pair _ k v1 v2⟩

/-- Claim C5 witness: running the two setter tools in one turn leaves the
value written by the second call in the merged context map. -/
theorem ctx_last_write_wins_witness :
    (run regSetters svcTwoSets agentA [] none none false false (some 1) true).isOk = true ∧
    List.lookup "k"
      (run regSetters svcTwoSets agentA [] none none false false (some 1) true).ctxOf =
      some "2" :=
  ctx_last_write_wins regSetters svcTwoSets agentA [] none none false true
    ⟨"c1", "set1", .wellFormed (Json.obj [])⟩
    ⟨"c2", "set2", .wellFormed (Json.obj [])⟩
    ⟨none, some [⟨"c1", "set1", .wellFormed (Json.obj [])⟩,
                 ⟨"c2", "set2", .wellFormed (Json.obj [])⟩], none⟩
    (fun _ => setterResult "1") (fun _ => setterResult "2") [] []
    "set" "set" none none "k" "1" "2" rfl rfl rfl rfl rfl rfl
    (fun _ => rfl) (fun _ => rfl)

/-- Claim C6: when one turn carries two tool calls that each produce a
replacement agent, the active agent after the turn is the one from the
call processed later in dispatch order. -/
theorem handoff_last_wins (reg : ToolRegistry)
    (svc : Agent → List Message → Except String Completion) (agent : Agent)
    (messages : List Message) (ctx0 : Option CtxMap) (mo : Option String)
    (dbg et : Bool) (c1 c2 : ToolCall) (comp : Completion)
    (f1 f2 : Json → Json) (flds1 flds2 : List (String × Json))
    (s1 s2 : String) (g1 g2 : Agent) (cv1 cv2 : CtxMap)
    (hsvc : svc agent messages = Except.ok comp)
    (htc : comp.tool_calls = some [c1, c2])
    (hl1 : reg.get_function c1.name = some f1)
    (hl2 : reg.get_function c2.name = some f2)
    (ha1 : c1.arguments = ArgPayload.wellFormed (Json.obj flds1))
    (ha2 : c2.arguments = ArgPayload.wellFormed (Json.obj flds2))
    (hr1 : ∀ x, handle_function_result (f1 x) dbg = .ok ⟨s1, some g1, cv1⟩)
    (hr2 : ∀ x, handle_function_result (f2 x) dbg = .ok ⟨s2, some g2, cv2⟩) :
    (run reg svc agent messages ctx0 mo false dbg (some 1) et).isOk = true ∧
    (run reg svc agent messages ctx0 mo false dbg (some 1) et).agentOf = some g2 := by
  simp only [run, if_false, Bool.false_eq_true, Option.getD_some]
  rw [runLoop, if_pos (by omega : messages.length - messages.length < 1)]
  simp only [hsvc, htc, handle_tool_calls, handleToolCallsAux, hl1, hl2, ha1,
    ha2, parseArgs, Json.asObject, hr1, hr2]
  simp only [runLoop, RunOutcome.isOk, RunOutcome.agentOf]
  exact ⟨trivial, trivial⟩

/-- Claim C6 witness: running the two handoff tools in one turn leaves the
agent handed off by the second call as the active agent. -/
theorem handoff_last_wins_witness :
    (run regHandoffs svcTwoHandoffs agentA [] none none false false (some 1) true).isOk = true ∧
    (run regHandoffs svcTwoHandoffs agentA [] none none false false (some 1) true).agentOf =
      some refundAgent :=
  handoff_last_wins regHandoffs svcTwoHandoffs agentA [] none none false true
    ⟨"c1", "to_sales", .wellFormed (Json.obj [])⟩
    ⟨"c2", "to_refund", .wellFormed (Json.obj [])⟩
    ⟨none, some [⟨"c1", "to_sales", .wellFormed (Json.obj [])⟩,
                 ⟨"c2", "to_refund", .wellFormed (Json.obj [])⟩], none⟩
    (fun _ => handoffResult "Sales Agent") (fun _ => handoffResult "Refund Agent")
    [] [] "handoff" "handoff" salesAgent refundAgent [] [] rfl rfl rfl rfl rfl
    rfl (fun _ => rfl) (fun _ => rfl)

/-- Claim C9: a tool call for an unregistered name invokes no handler,
appends a Tool message whose content signals not found and carries the
call id, dispatch continues with the next call, and run returns a
Response, not an error. -/
theorem unknown_tool_recoverable (reg : ToolRegistry)
    (svc : Agent → List Message → Except String Completion) (agent : Agent)
    (messages : List Message) (ctx0 : Option CtxMap) (mo : Option String)
    (dbg et : Bool) (c1 c2 : ToolCall) (comp : Completion)
    (hsvc : svc agent messages = Except.ok comp)
    (htc : comp.tool_calls = some [c1, c2])
    (hl1 : reg.get_function c1.name = none)
    (hl2 : reg.get_function c2.name = none) :
    (run reg svc agent messages ctx0 mo false dbg (some 1) et).isOk = true ∧
    (run reg svc agent messages ctx0 mo false dbg (some 1) et).messagesOf =
      [Message.assistant comp.content comp.tool_calls comp.refusal,
       Message.tool ("error: tool " ++ c1.name ++ " not found.") c1.id,
       Message.tool ("error: tool " ++ c2.name ++ " not found.") c2.id] := by
  simp only [run, if_false, Bool.false_eq_true, Option.getD_some]
  rw [runLoop, if_pos (by omega : messages.length - messages.length < 1)]
  simp only [hsvc, htc, handle_tool_calls, handleToolCallsAux, hl1, hl2]
  simp only [runLoop, RunOutcome.isOk, RunOutcome.messagesOf, List.nil_append,
    List.singleton_append, List.append_assoc, List.cons_append, List.drop_left]
  exact ⟨trivial, trivial⟩

/-- Claim C9 witness: two calls to unregistered names both yield not-found
Tool messages correlated to their ids and the run returns a Response. -/
theorem unknown_tool_recoverable_witness :
    (run ToolRegistry.new svcTwoMissing agentA [] none none false false (some 1) true).isOk = true ∧
    (run ToolRegistry.new svcTwoMissing agentA [] none none false false (some 1) true).messagesOf =
      [Message.assistant (some "calling")
         (some [⟨"c1", "ghost1", .wellFormed (Json.obj [])⟩,
                ⟨"c2", "ghost2", .wellFormed (Json.obj [])⟩]) none,
       Message.tool "error: tool ghost1 not found." "c1",
       Message.tool "error: tool ghost2 not found." "c2"] :=
  unknown_tool_recoverable ToolRegistry.new svcTwoMissing agentA [] none none
    false true ⟨"c1", "ghost1", .wellFormed (Json.obj [])⟩
    ⟨"c2", "ghost2", .wellFormed (Json.obj [])⟩
    ⟨some "calling", some [⟨"c1", "ghost1", .wellFormed (Json.obj [])⟩,
                           ⟨"c2", "ghost2", .wellFormed (Json.obj [])⟩], none⟩
    rfl rfl rfl rfl

/-- Claim C1 witness: with the no-tool-call service, max_turns = 1 appends
exactly one assistant message and the run terminates with it. -/
theorem run_turn_budget_witness :
    run ToolRegistry.new svcNT agentA [] none none false false (some 1) true =
      .ok ⟨[Message.assistant (some "All done.") none none], some agentA, []⟩ :=
  (run_turn_budget ToolRegistry.new svcNT agentA [] none none false true 0 1
    (by intro a h c hc; injection hc with h2; rw [← h2]; decide)).2 compNT rfl rfl
